import Mathlib

-- Shallow embedding of src/trail-shader/trail-effect.ts (TrailEffect, the trail
-- accumulation post-processing effect).  Pure GLSL pixel math is embedded over ℝ;
-- the stateful effect object, its two ping-pong render targets and the renderer
-- interaction are embedded as explicit state passing over a record type.

-- ## The two GLSL shaders (fragmentShader of the internal blend pass, and the
-- mainImage shader handed to the postprocessing Effect base class).

/-- An RGBA color vector, modelling a GLSL vec4 over the reals. -/
structure Vec4 where
  x : ℝ
  y : ℝ
  z : ℝ
  w : ℝ

/-- GLSL mix(a, b, t) = a * (1 - t) + b * t (linear interpolation). -/
def glslMix (a b t : ℝ) : ℝ := a * (1 - t) + b * t

/-- The main function of the fragment shader of the internal full-screen blend
pass (trail-effect.ts, const fragmentShader).  The two sampler2D uniforms are
modelled as functions from uv coordinates to colors; texture2D is application. -/
noncomputable def fragMain (currentFrame previousFrame : ℝ × ℝ → Vec4)
    (trailAmount : ℝ) (trailEnabled : Bool) (vUv : ℝ × ℝ) : Vec4 :=
  let current := currentFrame vUv
  if trailEnabled then
    let previous := previousFrame vUv
    let decay := Real.exp (-trailAmount * 0.2)
    ⟨glslMix current.x previous.x decay, glslMix current.y previous.y decay,
     glslMix current.z previous.z decay, 1⟩
  else
    current

/-- The mainImage function of the effect shader (trail-effect.ts, const
mainImageShader); identical math, with the postprocessing-framework signature
taking an inputColor that the body never reads. -/
noncomputable def mainImage (currentFrame previousFrame : ℝ × ℝ → Vec4)
    (trailAmount : ℝ) (trailEnabled : Bool) (inputColor : Vec4) (uv : ℝ × ℝ) : Vec4 :=
  let current := currentFrame uv
  if trailEnabled then
    let previous := previousFrame uv
    let decay := Real.exp (-trailAmount * 0.2)
    ⟨glslMix current.x previous.x decay, glslMix current.y previous.y decay,
     glslMix current.z previous.z decay, 1⟩
  else
    current

-- ## The stateful effect object.

/-- The postprocessing BlendFunction enumeration, abstracted: the effect never
interprets it, it only stores and forwards it. -/
inductive BlendFn where
  | normal
  | lighten
  | screen
  | other (n : ℕ)
deriving DecidableEq

/-- A texture identity: either the texture of a host-side buffer (such as the
composer input buffer passed to update) or the texture of one of the effect's
two owned render targets, named by physical allocation. -/
inductive Tex where
  | host (n : ℕ)
  | bufTex (b : Bool)
deriving DecidableEq

/-- Symbolic content of a render target.  fresh is a newly allocated texture
(WebGL zero-initialises storage, so it reads back as transparent black, the
same baseline as an explicit clear); cleared is the result of renderer.clear();
rendered records a full-screen blend pass together with the uniform bindings
the pass sampled. -/
inductive BufContent where
  | fresh
  | cleared
  | rendered (cur prev : Option Tex) (enabled : Bool) (amount : ℚ)
deriving DecidableEq

/-- A THREE.WebGLRenderTarget: dimensions plus symbolic content. -/
structure Buffer where
  width : ℤ
  height : ℤ
  content : BufContent
deriving DecidableEq

/-- THREE.WebGLRenderTarget.setSize: when the dimensions change, store the new
dimensions and dispose the texture (the old contents are lost; the reallocated
texture reads as the zero baseline).  When they are unchanged it is a no-op. -/
def Buffer.setSize (b : Buffer) (w h : ℤ) : Buffer :=
  if b.width = w ∧ b.height = h then b else ⟨w, h, BufContent.fresh⟩

/-- TrailEffectOptions: every field optional, as in the source interface. -/
structure TrailEffectOptions where
  trailAmount : Option ℚ
  trailEnabled : Option Bool
  resolutionScale : Option ℚ
  blendFunction : Option BlendFn
deriving DecidableEq

/-- The TrailEffect instance state.  buf0 and buf1 are the two physical render
target allocations; renderTargetA and renderTargetB say which allocation each
of the two source fields currently denotes (false picks buf0, true picks buf1);
they start as buf0 and buf1 and are exchanged by swapRenderTargets.  The fx*
fields are the uniforms map of the Effect base class, the mat* fields are the
uniforms of the internal postFXMesh ShaderMaterial. -/
structure TrailEffect where
  buf0 : Buffer
  buf1 : Buffer
  renderTargetA : Bool
  renderTargetB : Bool
  resolutionScale : ℚ
  localRenderer : Bool
  blendFn : BlendFn
  blendModeFn : BlendFn
  fxCurrent : Option Tex
  fxPrevious : Option Tex
  fxTrailAmount : ℚ
  fxTrailEnabled : Bool
  matCurrent : Option Tex
  matPrevious : Option Tex
  matTrailAmount : ℚ
  matTrailEnabled : Bool
deriving DecidableEq

/-- The allocation a role pointer denotes. -/
def TrailEffect.bufAt (e : TrailEffect) (b : Bool) : Buffer :=
  if b then e.buf1 else e.buf0

/-- Replace the allocation a role pointer denotes. -/
def TrailEffect.setBuf (e : TrailEffect) (b : Bool) (buf : Buffer) : TrailEffect :=
  if b then { e with buf1 := buf } else { e with buf0 := buf }

/-- The TrailEffect constructor: defaults trailAmount = 95, trailEnabled = true,
resolutionScale = 0.5, blendFunction = LIGHTEN; stores trailAmount / 100 in both
uniform maps, null frame bindings, and creates the two render targets with
dimensions 1 x 1. -/
def TrailEffect.construct (o : TrailEffectOptions) : TrailEffect :=
  let trailAmount := o.trailAmount.getD 95
  let trailEnabled := o.trailEnabled.getD true
  let resolutionScale := o.resolutionScale.getD (1 / 2)
  let blendFunction := o.blendFunction.getD BlendFn.lighten
  { buf0 := ⟨1, 1, BufContent.fresh⟩
    buf1 := ⟨1, 1, BufContent.fresh⟩
    renderTargetA := false
    renderTargetB := true
    resolutionScale := resolutionScale
    localRenderer := false
    blendFn := blendFunction
    blendModeFn := blendFunction
    fxCurrent := none
    fxPrevious := none
    fxTrailAmount := trailAmount / 100
    fxTrailEnabled := trailEnabled
    matCurrent := none
    matPrevious := none
    matTrailAmount := trailAmount / 100
    matTrailEnabled := trailEnabled }

/-- A render target identity from the renderer's point of view: one of the
effect's own targets, or any target owned by the host pipeline. -/
inductive RTarget where
  | owned (b : Bool)
  | hostRT (n : ℕ)
deriving DecidableEq

/-- The WebGLRenderer state the effect touches: the currently bound render
target (none is the default framebuffer) and the drawing buffer size. -/
structure Renderer where
  activeTarget : Option RTarget
  drawW : ℚ
  drawH : ℚ
deriving DecidableEq

/-- Global state: the renderer plus the effect instance. -/
structure GState where
  r : Renderer
  e : TrailEffect
deriving DecidableEq

/-- renderer.setRenderTarget. -/
def setRenderTarget (t : Option RTarget) (g : GState) : GState :=
  { g with r := { g.r with activeTarget := t } }

/-- renderer.clear(): clears the currently bound render target; only the
effect's own targets are tracked, a clear of a host target leaves our state. -/
def rendererClear (g : GState) : GState :=
  match g.r.activeTarget with
  | some (RTarget.owned b) =>
      { g with e := g.e.setBuf b ({ g.e.bufAt b with content := BufContent.cleared }) }
  | _ => g

/-- TrailEffect.clearRenderTargets: save the bound target, bind and clear
renderTargetA, bind and clear renderTargetB, restore the saved target. -/
def clearRenderTargetsOp (g : GState) : GState :=
  let oldTarget := g.r.activeTarget
  let g1 := setRenderTarget (some (RTarget.owned g.e.renderTargetA)) g
  let g2 := rendererClear g1
  let g3 := setRenderTarget (some (RTarget.owned g2.e.renderTargetB)) g2
  let g4 := rendererClear g3
  setRenderTarget oldTarget g4

/-- TrailEffect.setSize: scale the incoming viewport dimensions by
resolutionScale with Math.floor, resize both render targets, and clear them
when a renderer has been stored by initialize. -/
def setSizeOp (width height : ℚ) (g : GState) : GState :=
  let scaledWidth := Int.floor (width * g.e.resolutionScale)
  let scaledHeight := Int.floor (height * g.e.resolutionScale)
  let e1 := g.e.setBuf g.e.renderTargetA
    ((g.e.bufAt g.e.renderTargetA).setSize scaledWidth scaledHeight)
  let e2 := e1.setBuf e1.renderTargetB
    ((e1.bufAt e1.renderTargetB).setSize scaledWidth scaledHeight)
  let g1 := { g with e := e2 }
  if g1.e.localRenderer then clearRenderTargetsOp g1 else g1

/-- TrailEffect.initialize: store the renderer, size the render targets from
the drawing buffer size, and clear them. -/
def initEffect (g : GState) : GState :=
  let g1 := { g with e := { g.e with localRenderer := true } }
  let g2 := setSizeOp g1.r.drawW g1.r.drawH g1
  clearRenderTargetsOp g2

/-- TrailEffect.resetRenderTargets: clear both targets when a renderer is
stored, otherwise do nothing. -/
def resetRenderTargetsOp (g : GState) : GState :=
  if g.e.localRenderer then clearRenderTargetsOp g else g

/-- TrailEffect.swapRenderTargets: exchange the two role pointers. -/
def TrailEffect.swapRenderTargets (e : TrailEffect) : TrailEffect :=
  { e with renderTargetA := e.renderTargetB, renderTargetB := e.renderTargetA }

/-- TrailEffect.updateUniforms: bind the input texture as currentFrame and the
texture of (the post-swap) renderTargetB as previousFrame, in both the material
uniforms and the effect uniforms. -/
def TrailEffect.updateUniforms (inputTexture : Tex) (e : TrailEffect) : TrailEffect :=
  let previousTexture := Tex.bufTex e.renderTargetB
  { e with
    matCurrent := some inputTexture
    matPrevious := some previousTexture
    fxCurrent := some inputTexture
    fxPrevious := some previousTexture }

/-- renderer.render(postFXScene, orthoCamera): the full-screen quad draws the
blend-pass fragment shader into the bound render target; the symbolic content
records exactly which material uniform bindings the pass sampled. -/
def renderPostFX (g : GState) : GState :=
  match g.r.activeTarget with
  | some (RTarget.owned b) =>
      let drawn : Buffer :=
        { g.e.bufAt b with
          content := BufContent.rendered g.e.matCurrent g.e.matPrevious
            g.e.matTrailEnabled g.e.matTrailAmount }
      { g with e := g.e.setBuf b drawn }
  | _ => g

/-- TrailEffect.update (one Step): bind renderTargetA, render the blend pass
into it, swap the role pointers, then update the uniforms from the input
buffer texture.  Note the render happens before the uniforms are updated. -/
def updateOp (inputTexture : Tex) (g : GState) : GState :=
  let g1 := setRenderTarget (some (RTarget.owned g.e.renderTargetA)) g
  let g2 := renderPostFX g1
  let g3 := { g2 with e := g2.e.swapRenderTargets }
  { g3 with e := g3.e.updateUniforms inputTexture }

/-- TrailEffect.updateBlendFunction: store the new blend function in both the
private field and the blend mode of the Effect base class. -/
def TrailEffect.updateBlendFunction (f : BlendFn) (e : TrailEffect) : TrailEffect :=
  { e with blendFn := f, blendModeFn := f }

/-- First if-block of TrailEffect.updateOptions: a provided trailAmount is
divided by 100 and stored in both uniform maps, with no clamping. -/
def updateOptionsAmount (trailAmount : Option ℚ) (g : GState) : GState :=
  match trailAmount with
  | some v =>
      { g with e := { g.e with fxTrailAmount := v / 100, matTrailAmount := v / 100 } }
  | none => g

/-- Second if-block of TrailEffect.updateOptions: a provided trailEnabled is
stored in both uniform maps. -/
def updateOptionsEnabled (trailEnabled : Option Bool) (g : GState) : GState :=
  match trailEnabled with
  | some b =>
      { g with e := { g.e with fxTrailEnabled := b, matTrailEnabled := b } }
  | none => g

/-- Third if-block of TrailEffect.updateOptions: a provided resolutionScale
that differs from the current one is stored as given (no clamping), and when a
renderer is stored setSize is re-run from the drawing buffer size. -/
def updateOptionsScale (resolutionScale : Option ℚ) (g : GState) : GState :=
  match resolutionScale with
  | some v =>
      if v = g.e.resolutionScale then g
      else
        let g' := { g with e := { g.e with resolutionScale := v } }
        if g'.e.localRenderer then setSizeOp g'.r.drawW g'.r.drawH g' else g'
  | none => g

/-- Fourth if-block of TrailEffect.updateOptions: a provided blendFunction
that differs from the stored one is forwarded to updateBlendFunction. -/
def updateOptionsBlend (blendFunction : Option BlendFn) (g : GState) : GState :=
  match blendFunction with
  | some f => if f = g.e.blendFn then g else { g with e := g.e.updateBlendFunction f }
  | none => g

/-- TrailEffect.updateOptions with its four optional positional arguments: the
four if-blocks of the source method run in order. -/
def updateOptionsOp (trailAmount : Option ℚ) (trailEnabled : Option Bool)
    (resolutionScale : Option ℚ) (blendFunction : Option BlendFn) (g : GState) : GState :=
  updateOptionsBlend blendFunction
    (updateOptionsScale resolutionScale
      (updateOptionsEnabled trailEnabled
        (updateOptionsAmount trailAmount g)))

/-- A sequence of consecutive Step calls, one per input texture. -/
def runSteps (inputs : List Tex) (g : GState) : GState :=
  inputs.foldl (fun s t => updateOp t s) g

/-- States that arise in the effect's documented lifecycle: construction,
then any interleaving of initialize, setSize, resetRenderTargets,
updateOptions, host render target changes, and update, where update (Step) is
only issued once a renderer is stored (the framework calls initialize when the
pass is added, before any update). -/
inductive Reachable : GState → Prop where
  | constructed (r : Renderer) (o : TrailEffectOptions) :
      Reachable ⟨r, TrailEffect.construct o⟩
  | doInit (g : GState) : Reachable g → Reachable (initEffect g)
  | doSetSize (w h : ℚ) (g : GState) : Reachable g → Reachable (setSizeOp w h g)
  | doReset (g : GState) : Reachable g → Reachable (resetRenderTargetsOp g)
  | doOptions (ta : Option ℚ) (te : Option Bool) (rs : Option ℚ)
      (bf : Option BlendFn) (g : GState) :
      Reachable g → Reachable (updateOptionsOp ta te rs bf g)
  | doStep (t : Tex) (g : GState) :
      Reachable g → g.e.localRenderer = true → Reachable (updateOp t g)
  | hostBind (t : Option RTarget) (g : GState) :
      Reachable g → Reachable (setRenderTarget t g)

/-- Content that reads back as the clear baseline (transparent black): either
never written since (re)allocation, or explicitly cleared. -/
def Baseline (c : BufContent) : Prop := c = BufContent.fresh ∨ c = BufContent.cleared

/-- Structural invariants of a live effect: the two role pointers denote
distinct allocations, both render targets have identical dimensions, and until
a renderer is stored no blend pass has written into either target. -/
def EInv (e : TrailEffect) : Prop :=
  e.renderTargetB = !e.renderTargetA
  ∧ e.buf0.width = e.buf1.width ∧ e.buf0.height = e.buf1.height
  ∧ (e.localRenderer = false → Baseline e.buf0.content ∧ Baseline e.buf1.content)

/-- A concrete demonstration state: default options, a renderer with an
800 x 600 drawing buffer and the default framebuffer bound. -/
def demoState : GState :=
  ⟨⟨none, 800, 600⟩, TrailEffect.construct ⟨none, none, none, none⟩⟩

-- ## Helper lemmas about the primitive operations.

theorem Buffer.setSize_dims (b : Buffer) (w h : ℤ) :
    (b.setSize w h).width = w ∧ (b.setSize w h).height = h := by
  unfold Buffer.setSize
  split
  · rename_i hc
    exact ⟨hc.1, hc.2⟩
  · exact ⟨rfl, rfl⟩

theorem Buffer.setSize_baseline (b : Buffer) (w h : ℤ) (hb : Baseline b.content) :
    Baseline ((b.setSize w h).content) := by
  unfold Buffer.setSize
  split
  · exact hb
  · exact Or.inl rfl

@[simp] theorem TrailEffect.setBuf_params (e : TrailEffect) (b : Bool) (buf : Buffer) :
    (e.setBuf b buf).renderTargetA = e.renderTargetA
    ∧ (e.setBuf b buf).renderTargetB = e.renderTargetB
    ∧ (e.setBuf b buf).resolutionScale = e.resolutionScale
    ∧ (e.setBuf b buf).localRenderer = e.localRenderer
    ∧ (e.setBuf b buf).blendFn = e.blendFn
    ∧ (e.setBuf b buf).blendModeFn = e.blendModeFn
    ∧ (e.setBuf b buf).fxCurrent = e.fxCurrent
    ∧ (e.setBuf b buf).fxPrevious = e.fxPrevious
    ∧ (e.setBuf b buf).fxTrailAmount = e.fxTrailAmount
    ∧ (e.setBuf b buf).fxTrailEnabled = e.fxTrailEnabled
    ∧ (e.setBuf b buf).matCurrent = e.matCurrent
    ∧ (e.setBuf b buf).matPrevious = e.matPrevious
    ∧ (e.setBuf b buf).matTrailAmount = e.matTrailAmount
    ∧ (e.setBuf b buf).matTrailEnabled = e.matTrailEnabled := by
  cases b <;> simp [TrailEffect.setBuf]

@[simp] theorem TrailEffect.bufAt_setBuf (e : TrailEffect) (b : Bool) (buf : Buffer) :
    (e.setBuf b buf).bufAt b = buf := by
  cases b <;> simp [TrailEffect.setBuf, TrailEffect.bufAt]

@[simp] theorem setRenderTarget_e (t : Option RTarget) (g : GState) :
    (setRenderTarget t g).e = g.e := rfl

@[simp] theorem setRenderTarget_active (t : Option RTarget) (g : GState) :
    (setRenderTarget t g).r.activeTarget = t := rfl

@[simp] theorem setRenderTarget_drawW (t : Option RTarget) (g : GState) :
    (setRenderTarget t g).r.drawW = g.r.drawW := rfl

@[simp] theorem setRenderTarget_drawH (t : Option RTarget) (g : GState) :
    (setRenderTarget t g).r.drawH = g.r.drawH := rfl

@[simp] theorem rendererClear_r (g : GState) : (rendererClear g).r = g.r := by
  unfold rendererClear
  split <;> rfl

@[simp] theorem rendererClear_params (g : GState) :
    (rendererClear g).e.renderTargetA = g.e.renderTargetA
    ∧ (rendererClear g).e.renderTargetB = g.e.renderTargetB
    ∧ (rendererClear g).e.resolutionScale = g.e.resolutionScale
    ∧ (rendererClear g).e.localRenderer = g.e.localRenderer
    ∧ (rendererClear g).e.blendFn = g.e.blendFn
    ∧ (rendererClear g).e.blendModeFn = g.e.blendModeFn
    ∧ (rendererClear g).e.fxCurrent = g.e.fxCurrent
    ∧ (rendererClear g).e.fxPrevious = g.e.fxPrevious
    ∧ (rendererClear g).e.fxTrailAmount = g.e.fxTrailAmount
    ∧ (rendererClear g).e.fxTrailEnabled = g.e.fxTrailEnabled
    ∧ (rendererClear g).e.matCurrent = g.e.matCurrent
    ∧ (rendererClear g).e.matPrevious = g.e.matPrevious
    ∧ (rendererClear g).e.matTrailAmount = g.e.matTrailAmount
    ∧ (rendererClear g).e.matTrailEnabled = g.e.matTrailEnabled
    ∧ (rendererClear g).e.buf0.width = g.e.buf0.width
    ∧ (rendererClear g).e.buf0.height = g.e.buf0.height
    ∧ (rendererClear g).e.buf1.width = g.e.buf1.width
    ∧ (rendererClear g).e.buf1.height = g.e.buf1.height := by
  unfold rendererClear
  split
  · rename_i b heq
    cases b <;> simp [TrailEffect.setBuf, TrailEffect.bufAt]
  · simp

@[simp] theorem clearRenderTargetsOp_r (g : GState) :
    (clearRenderTargetsOp g).r = g.r := by
  unfold clearRenderTargetsOp
  simp [setRenderTarget]

@[simp] theorem clearRenderTargetsOp_params (g : GState) :
    (clearRenderTargetsOp g).e.renderTargetA = g.e.renderTargetA
    ∧ (clearRenderTargetsOp g).e.renderTargetB = g.e.renderTargetB
    ∧ (clearRenderTargetsOp g).e.resolutionScale = g.e.resolutionScale
    ∧ (clearRenderTargetsOp g).e.localRenderer = g.e.localRenderer
    ∧ (clearRenderTargetsOp g).e.blendFn = g.e.blendFn
    ∧ (clearRenderTargetsOp g).e.blendModeFn = g.e.blendModeFn
    ∧ (clearRenderTargetsOp g).e.fxCurrent = g.e.fxCurrent
    ∧ (clearRenderTargetsOp g).e.fxPrevious = g.e.fxPrevious
    ∧ (clearRenderTargetsOp g).e.fxTrailAmount = g.e.fxTrailAmount
    ∧ (clearRenderTargetsOp g).e.fxTrailEnabled = g.e.fxTrailEnabled
    ∧ (clearRenderTargetsOp g).e.matCurrent = g.e.matCurrent
    ∧ (clearRenderTargetsOp g).e.matPrevious = g.e.matPrevious
    ∧ (clearRenderTargetsOp g).e.matTrailAmount = g.e.matTrailAmount
    ∧ (clearRenderTargetsOp g).e.matTrailEnabled = g.e.matTrailEnabled
    ∧ (clearRenderTargetsOp g).e.buf0.width = g.e.buf0.width
    ∧ (clearRenderTargetsOp g).e.buf0.height = g.e.buf0.height
    ∧ (clearRenderTargetsOp g).e.buf1.width = g.e.buf1.width
    ∧ (clearRenderTargetsOp g).e.buf1.height = g.e.buf1.height := by
  unfold clearRenderTargetsOp
  simp [setRenderTarget]

theorem clearRenderTargetsOp_contents (g : GState)
    (hAB : g.e.renderTargetB = !g.e.renderTargetA) :
    (clearRenderTargetsOp g).e.buf0.content = BufContent.cleared
    ∧ (clearRenderTargetsOp g).e.buf1.content = BufContent.cleared := by
  cases hA : g.e.renderTargetA <;>
    (rw [hA] at hAB
     simp [clearRenderTargetsOp, rendererClear, setRenderTarget,
           TrailEffect.setBuf, TrailEffect.bufAt, hA, hAB])

@[simp] theorem setSizeOp_params (w h : ℚ) (g : GState) :
    (setSizeOp w h g).e.renderTargetA = g.e.renderTargetA
    ∧ (setSizeOp w h g).e.renderTargetB = g.e.renderTargetB
    ∧ (setSizeOp w h g).e.resolutionScale = g.e.resolutionScale
    ∧ (setSizeOp w h g).e.localRenderer = g.e.localRenderer
    ∧ (setSizeOp w h g).e.blendFn = g.e.blendFn
    ∧ (setSizeOp w h g).e.blendModeFn = g.e.blendModeFn
    ∧ (setSizeOp w h g).e.fxCurrent = g.e.fxCurrent
    ∧ (setSizeOp w h g).e.fxPrevious = g.e.fxPrevious
    ∧ (setSizeOp w h g).e.fxTrailAmount = g.e.fxTrailAmount
    ∧ (setSizeOp w h g).e.fxTrailEnabled = g.e.fxTrailEnabled
    ∧ (setSizeOp w h g).e.matCurrent = g.e.matCurrent
    ∧ (setSizeOp w h g).e.matPrevious = g.e.matPrevious
    ∧ (setSizeOp w h g).e.matTrailAmount = g.e.matTrailAmount
    ∧ (setSizeOp w h g).e.matTrailEnabled = g.e.matTrailEnabled
    ∧ (setSizeOp w h g).r.activeTarget = g.r.activeTarget
    ∧ (setSizeOp w h g).r.drawW = g.r.drawW
    ∧ (setSizeOp w h g).r.drawH = g.r.drawH := by
  by_cases hl : g.e.localRenderer = true <;> simp [setSizeOp, hl]

theorem setSizeOp_dims (w h : ℚ) (g : GState)
    (hAB : g.e.renderTargetB = !g.e.renderTargetA) :
    (setSizeOp w h g).e.buf0.width = Int.floor (w * g.e.resolutionScale)
    ∧ (setSizeOp w h g).e.buf0.height = Int.floor (h * g.e.resolutionScale)
    ∧ (setSizeOp w h g).e.buf1.width = Int.floor (w * g.e.resolutionScale)
    ∧ (setSizeOp w h g).e.buf1.height = Int.floor (h * g.e.resolutionScale) := by
  by_cases hl : g.e.localRenderer = true <;>
    cases hA : g.e.renderTargetA <;>
      (rw [hA] at hAB
       simp [setSizeOp, hl, hA, hAB, TrailEffect.setBuf, TrailEffect.bufAt,
             Buffer.setSize_dims])

theorem setSizeOp_contents_clear (w h : ℚ) (g : GState)
    (hAB : g.e.renderTargetB = !g.e.renderTargetA)
    (hl : g.e.localRenderer = true) :
    (setSizeOp w h g).e.buf0.content = BufContent.cleared
    ∧ (setSizeOp w h g).e.buf1.content = BufContent.cleared := by
  cases hA : g.e.renderTargetA <;>
    (rw [hA] at hAB
     simp [setSizeOp, hl, hA, hAB, clearRenderTargetsOp, rendererClear,
           setRenderTarget, TrailEffect.setBuf, TrailEffect.bufAt])

theorem setSizeOp_baseline (w h : ℚ) (g : GState)
    (hAB : g.e.renderTargetB = !g.e.renderTargetA)
    (hb : g.e.localRenderer = false →
      Baseline g.e.buf0.content ∧ Baseline g.e.buf1.content) :
    Baseline (setSizeOp w h g).e.buf0.content
    ∧ Baseline (setSizeOp w h g).e.buf1.content := by
  by_cases hl : g.e.localRenderer = true
  · have hc := setSizeOp_contents_clear w h g hAB hl
    exact ⟨Or.inr hc.1, Or.inr hc.2⟩
  · have hb0 := (hb (by simpa using hl)).1
    have hb1 := (hb (by simpa using hl)).2
    cases hA : g.e.renderTargetA <;>
      (rw [hA] at hAB
       constructor <;>
         (simp [setSizeOp, hl, hA, hAB, TrailEffect.setBuf, TrailEffect.bufAt]
          first
          | exact Buffer.setSize_baseline _ _ _ hb0
          | exact Buffer.setSize_baseline _ _ _ hb1))

@[simp] theorem updateOp_e_fields (t : Tex) (g : GState) :
    (updateOp t g).e.renderTargetA = g.e.renderTargetB
    ∧ (updateOp t g).e.renderTargetB = g.e.renderTargetA
    ∧ (updateOp t g).e.matCurrent = some t
    ∧ (updateOp t g).e.fxCurrent = some t
    ∧ (updateOp t g).e.matPrevious = some (Tex.bufTex g.e.renderTargetA)
    ∧ (updateOp t g).e.fxPrevious = some (Tex.bufTex g.e.renderTargetA)
    ∧ (updateOp t g).e.resolutionScale = g.e.resolutionScale
    ∧ (updateOp t g).e.localRenderer = g.e.localRenderer
    ∧ (updateOp t g).e.blendFn = g.e.blendFn
    ∧ (updateOp t g).e.blendModeFn = g.e.blendModeFn
    ∧ (updateOp t g).e.fxTrailAmount = g.e.fxTrailAmount
    ∧ (updateOp t g).e.fxTrailEnabled = g.e.fxTrailEnabled
    ∧ (updateOp t g).e.matTrailAmount = g.e.matTrailAmount
    ∧ (updateOp t g).e.matTrailEnabled = g.e.matTrailEnabled := by
  simp [updateOp, renderPostFX, setRenderTarget, TrailEffect.swapRenderTargets,
        TrailEffect.updateUniforms]

theorem updateOp_dims (t : Tex) (g : GState) :
    (updateOp t g).e.buf0.width = g.e.buf0.width
    ∧ (updateOp t g).e.buf0.height = g.e.buf0.height
    ∧ (updateOp t g).e.buf1.width = g.e.buf1.width
    ∧ (updateOp t g).e.buf1.height = g.e.buf1.height := by
  cases hA : g.e.renderTargetA <;>
    simp [updateOp, renderPostFX, setRenderTarget, TrailEffect.swapRenderTargets,
          TrailEffect.updateUniforms, TrailEffect.setBuf, TrailEffect.bufAt, hA]

theorem updateOp_written (t : Tex) (g : GState) :
    ((updateOp t g).e.bufAt g.e.renderTargetA).content
      = BufContent.rendered g.e.matCurrent g.e.matPrevious
          g.e.matTrailEnabled g.e.matTrailAmount := by
  cases hA : g.e.renderTargetA <;>
    simp [updateOp, renderPostFX, setRenderTarget, TrailEffect.swapRenderTargets,
          TrailEffect.updateUniforms, TrailEffect.setBuf, TrailEffect.bufAt, hA]

-- ## Preservation of the structural invariants along the lifecycle.

theorem EInv_of_same (e e' : TrailEffect)
    (h0 : e'.buf0 = e.buf0) (h1 : e'.buf1 = e.buf1)
    (hA : e'.renderTargetA = e.renderTargetA) (hB : e'.renderTargetB = e.renderTargetB)
    (hL : e'.localRenderer = e.localRenderer) (hi : EInv e) : EInv e' := by
  obtain ⟨hAB, hw, hh, hb⟩ := hi
  refine ⟨by rw [hA, hB]; exact hAB, by rw [h0, h1]; exact hw,
    by rw [h0, h1]; exact hh, fun hf => ?_⟩
  rw [h0, h1]
  exact hb (hL ▸ hf)

theorem EInv_construct (o : TrailEffectOptions) : EInv (TrailEffect.construct o) := by
  exact ⟨rfl, rfl, rfl, fun _ => ⟨Or.inl rfl, Or.inl rfl⟩⟩

theorem EInv_setSizeOp (w h : ℚ) (g : GState) (hi : EInv g.e) : EInv (setSizeOp w h g).e := by
  obtain ⟨hAB, hw, hh, hb⟩ := hi
  have hd := setSizeOp_dims w h g hAB
  have hbl := setSizeOp_baseline w h g hAB hb
  refine ⟨by simp [hAB], ?_, ?_, fun _ => hbl⟩
  · rw [hd.1, hd.2.2.1]
  · rw [hd.2.1, hd.2.2.2]

theorem EInv_clearOp (g : GState) (hi : EInv g.e) : EInv (clearRenderTargetsOp g).e := by
  obtain ⟨hAB, hw, hh, hb⟩ := hi
  have hc := clearRenderTargetsOp_contents g hAB
  exact ⟨by simp [hAB], by simp [hw], by simp [hh],
    fun _ => ⟨Or.inr hc.1, Or.inr hc.2⟩⟩

theorem EInv_setLocalRenderer (g : GState) (hi : EInv g.e) :
    EInv ({ g with e := { g.e with localRenderer := true } } : GState).e := by
  obtain ⟨hAB, hw, hh, hb⟩ := hi
  exact ⟨hAB, hw, hh, fun hf => by simp at hf⟩

theorem EInv_initEffect (g : GState) (hi : EInv g.e) : EInv (initEffect g).e := by
  exact EInv_clearOp _ (EInv_setSizeOp _ _ _ (EInv_setLocalRenderer g hi))

theorem EInv_resetOp (g : GState) (hi : EInv g.e) : EInv (resetRenderTargetsOp g).e := by
  unfold resetRenderTargetsOp
  split
  · exact EInv_clearOp g hi
  · exact hi

theorem EInv_updateOp (t : Tex) (g : GState) (hi : EInv g.e)
    (hl : g.e.localRenderer = true) : EInv (updateOp t g).e := by
  obtain ⟨hAB, hw, hh, hb⟩ := hi
  have hd := updateOp_dims t g
  refine ⟨by simp [hAB], ?_, ?_, fun hf => ?_⟩
  · rw [hd.1, hd.2.2.1]
    exact hw
  · rw [hd.2.1, hd.2.2.2]
    exact hh
  · simp [hl] at hf

theorem EInv_updateOptionsAmount (ta : Option ℚ) (g : GState) (hi : EInv g.e) :
    EInv (updateOptionsAmount ta g).e := by
  cases ta with
  | none => exact hi
  | some v => exact EInv_of_same g.e _ rfl rfl rfl rfl rfl hi

theorem EInv_updateOptionsEnabled (te : Option Bool) (g : GState) (hi : EInv g.e) :
    EInv (updateOptionsEnabled te g).e := by
  cases te with
  | none => exact hi
  | some b => exact EInv_of_same g.e _ rfl rfl rfl rfl rfl hi

theorem EInv_updateOptionsScale (rs : Option ℚ) (g : GState) (hi : EInv g.e) :
    EInv (updateOptionsScale rs g).e := by
  cases rs with
  | none => exact hi
  | some v =>
      by_cases hv : v = g.e.resolutionScale
      · simp [updateOptionsScale, hv]
        exact hi
      · by_cases hl : g.e.localRenderer = true
        · simp [updateOptionsScale, hv, hl]
          apply EInv_setSizeOp
          exact EInv_of_same g.e _ rfl rfl rfl rfl hl.symm hi
        · simp [updateOptionsScale, hv, hl]
          exact EInv_of_same g.e _ rfl rfl rfl rfl (by simp [hl]) hi

theorem EInv_updateOptionsBlend (bf : Option BlendFn) (g : GState) (hi : EInv g.e) :
    EInv (updateOptionsBlend bf g).e := by
  cases bf with
  | none => exact hi
  | some f =>
      unfold updateOptionsBlend
      by_cases hf : f = g.e.blendFn
      · simp [hf]
        exact hi
      · simp [hf]
        exact EInv_of_same g.e _ rfl rfl rfl rfl rfl hi

theorem EInv_updateOptionsOp (ta : Option ℚ) (te : Option Bool) (rs : Option ℚ)
    (bf : Option BlendFn) (g : GState) (hi : EInv g.e) :
    EInv (updateOptionsOp ta te rs bf g).e :=
  EInv_updateOptionsBlend _ _
    (EInv_updateOptionsScale _ _
      (EInv_updateOptionsEnabled _ _
        (EInv_updateOptionsAmount _ _ hi)))

/-- Every state the effect's documented lifecycle can reach satisfies the
structural invariants. -/
theorem EInv_of_reachable (g : GState) (h : Reachable g) : EInv g.e := by
  induction h with
  | constructed r o => exact EInv_construct o
  | doInit g hg ih => exact EInv_initEffect g ih
  | doSetSize w h g hg ih => exact EInv_setSizeOp w h g ih
  | doReset g hg ih => exact EInv_resetOp g ih
  | doOptions ta te rs bf g hg ih => exact EInv_updateOptionsOp ta te rs bf g ih
  | doStep t g hg hl ih => exact EInv_updateOp t g ih hl
  | hostBind t g hg ih => exact ih

-- ## Field bookkeeping for updateOptions and runSteps.

@[simp] theorem updateOptionsAmount_fields (ta : Option ℚ) (g : GState) :
    (updateOptionsAmount ta g).e.resolutionScale = g.e.resolutionScale
    ∧ (updateOptionsAmount ta g).e.localRenderer = g.e.localRenderer
    ∧ (updateOptionsAmount ta g).e.blendFn = g.e.blendFn
    ∧ (updateOptionsAmount ta g).r = g.r := by
  cases ta <;> simp [updateOptionsAmount]

@[simp] theorem updateOptionsEnabled_fields (te : Option Bool) (g : GState) :
    (updateOptionsEnabled te g).e.fxTrailAmount = g.e.fxTrailAmount
    ∧ (updateOptionsEnabled te g).e.matTrailAmount = g.e.matTrailAmount
    ∧ (updateOptionsEnabled te g).e.resolutionScale = g.e.resolutionScale
    ∧ (updateOptionsEnabled te g).e.localRenderer = g.e.localRenderer
    ∧ (updateOptionsEnabled te g).e.blendFn = g.e.blendFn
    ∧ (updateOptionsEnabled te g).r = g.r := by
  cases te <;> simp [updateOptionsEnabled]

@[simp] theorem updateOptionsScale_amount (rs : Option ℚ) (g : GState) :
    (updateOptionsScale rs g).e.fxTrailAmount = g.e.fxTrailAmount
    ∧ (updateOptionsScale rs g).e.matTrailAmount = g.e.matTrailAmount
    ∧ (updateOptionsScale rs g).e.blendFn = g.e.blendFn := by
  cases rs with
  | none => simp [updateOptionsScale]
  | some v =>
      by_cases hv : v = g.e.resolutionScale
      · simp [updateOptionsScale, hv]
      · by_cases hl : g.e.localRenderer = true <;>
          simp [updateOptionsScale, hv, hl]

@[simp] theorem updateOptionsBlend_fields (bf : Option BlendFn) (g : GState) :
    (updateOptionsBlend bf g).e.fxTrailAmount = g.e.fxTrailAmount
    ∧ (updateOptionsBlend bf g).e.matTrailAmount = g.e.matTrailAmount
    ∧ (updateOptionsBlend bf g).e.resolutionScale = g.e.resolutionScale := by
  cases bf with
  | none => simp [updateOptionsBlend]
  | some f =>
      by_cases hf : f = g.e.blendFn <;>
        simp [updateOptionsBlend, TrailEffect.updateBlendFunction, hf]

theorem updateOptionsScale_sets (v : ℚ) (g : GState) :
    (updateOptionsScale (some v) g).e.resolutionScale = v := by
  by_cases hv : v = g.e.resolutionScale
  · simp [updateOptionsScale, hv]
  · by_cases hl : g.e.localRenderer = true <;>
      simp [updateOptionsScale, hv, hl]

theorem runSteps_take_succ (inputs : List Tex) (g : GState) (i : ℕ)
    (h : i < inputs.length) :
    runSteps (inputs.take (i + 1)) g
      = updateOp inputs[i] (runSteps (inputs.take i) g) := by
  rw [runSteps, List.take_succ, List.getElem?_eq_getElem h]
  show ((inputs.take i) ++ [inputs[i]]).foldl (fun s t => updateOp t s) g = _
  rw [List.foldl_append]
  rfl

-- ## Claim theorems.

/-- C1: for every pixel, when enabled is true both blend-shader variants
compute decay = exp(-a * 0.2) from the stored normalized decay amount a and
write rgb = mix(current.rgb, previous.rgb, decay) (linear interpolation toward
the history sample) with the output alpha forced to 1, where current and
previous are the current-frame and history-source samples at that pixel. -/
theorem trail_blend_formula (currentFrame previousFrame : ℝ × ℝ → Vec4)
    (a : ℝ) (inputColor : Vec4) (uv : ℝ × ℝ) :
    fragMain currentFrame previousFrame a true uv
      = ⟨(currentFrame uv).x * (1 - Real.exp (-a * 0.2))
            + (previousFrame uv).x * Real.exp (-a * 0.2),
         (currentFrame uv).y * (1 - Real.exp (-a * 0.2))
            + (previousFrame uv).y * Real.exp (-a * 0.2),
         (currentFrame uv).z * (1 - Real.exp (-a * 0.2))
            + (previousFrame uv).z * Real.exp (-a * 0.2),
         1⟩
    ∧ mainImage currentFrame previousFrame a true inputColor uv
      = ⟨(currentFrame uv).x * (1 - Real.exp (-a * 0.2))
            + (previousFrame uv).x * Real.exp (-a * 0.2),
         (currentFrame uv).y * (1 - Real.exp (-a * 0.2))
            + (previousFrame uv).y * Real.exp (-a * 0.2),
         (currentFrame uv).z * (1 - Real.exp (-a * 0.2))
            + (previousFrame uv).z * Real.exp (-a * 0.2),
         1⟩ :=
  ⟨rfl, rfl⟩

/-- C2: when enabled is false both blend-shader variants output the
current-frame sample unchanged (alpha included) for every previous-frame
history, so no decay blending happens and the history is never consulted: a
hard bypass, not decay = 0. -/
theorem trail_bypass_identity (currentFrame previousFrame : ℝ × ℝ → Vec4)
    (a : ℝ) (inputColor : Vec4) (uv : ℝ × ℝ) :
    fragMain currentFrame previousFrame a false uv = currentFrame uv
    ∧ mainImage currentFrame previousFrame a false inputColor uv = currentFrame uv :=
  ⟨rfl, rfl⟩

/-- C3: along any sequence of Step calls, the buffer that is the write target
(renderTargetA) on call K becomes the history source on call K+1: Step swaps
the two role pointers after rendering and rebinds previousFrame (in both
uniform maps) to the texture of the just-written buffer before returning. -/
theorem trail_role_swap (g : GState) (inputs : List Tex) (i : ℕ)
    (h : i < inputs.length) :
    (runSteps (inputs.take (i + 1)) g).e.matPrevious
      = some (Tex.bufTex ((runSteps (inputs.take i) g).e.renderTargetA))
    ∧ (runSteps (inputs.take (i + 1)) g).e.fxPrevious
      = some (Tex.bufTex ((runSteps (inputs.take i) g).e.renderTargetA))
    ∧ (runSteps (inputs.take (i + 1)) g).e.renderTargetB
      = (runSteps (inputs.take i) g).e.renderTargetA
    ∧ (runSteps (inputs.take (i + 1)) g).e.renderTargetA
      = (runSteps (inputs.take i) g).e.renderTargetB := by
  rw [runSteps_take_succ inputs g i h]
  simp

/-- Witness for C3 at a concrete two-call sequence from the demonstration
state. -/
theorem trail_role_swap_witness :
    0 < ([Tex.host 0, Tex.host 1] : List Tex).length
    ∧ ((runSteps (([Tex.host 0, Tex.host 1] : List Tex).take (0 + 1)) demoState).e.matPrevious
        = some (Tex.bufTex
            ((runSteps (([Tex.host 0, Tex.host 1] : List Tex).take 0) demoState).e.renderTargetA))
      ∧ (runSteps (([Tex.host 0, Tex.host 1] : List Tex).take (0 + 1)) demoState).e.fxPrevious
        = some (Tex.bufTex
            ((runSteps (([Tex.host 0, Tex.host 1] : List Tex).take 0) demoState).e.renderTargetA))
      ∧ (runSteps (([Tex.host 0, Tex.host 1] : List Tex).take (0 + 1)) demoState).e.renderTargetB
        = (runSteps (([Tex.host 0, Tex.host 1] : List Tex).take 0) demoState).e.renderTargetA
      ∧ (runSteps (([Tex.host 0, Tex.host 1] : List Tex).take (0 + 1)) demoState).e.renderTargetA
        = (runSteps (([Tex.host 0, Tex.host 1] : List Tex).take 0) demoState).e.renderTargetB) :=
  ⟨by decide, trail_role_swap demoState [Tex.host 0, Tex.host 1] 0 (by decide)⟩

/-- C4 counterexample: on the very first Step call after construction the blend
pass does not sample that call's input: update renders before updateUniforms,
so the pass samples the constructor-initialized null currentFrame binding
(recorded in the written buffer's content), not the input just passed in. -/
theorem trail_first_call_binding_cex :
    ((updateOp (Tex.host 0) demoState).e.bufAt demoState.e.renderTargetA).content
      = BufContent.rendered none none true (95 / 100)
    ∧ (none : Option Tex) ≠ some (Tex.host 0) := by
  constructor
  · rfl
  · simp

/-- C4 corrected: the blend pass of a Step call samples the currentFrame and
previousFrame bindings as they stood on entry to the call (those set by the
previous call's updateUniforms, or the constructor's null bindings on the very
first call), because update renders before updating the uniforms; the call's
own input becomes the currentFrame binding only after the render, so it is
first sampled on the following call. -/
theorem trail_current_binding_lag (t : Tex) (g : GState) (o : TrailEffectOptions) :
    ((updateOp t g).e.bufAt g.e.renderTargetA).content
      = BufContent.rendered g.e.matCurrent g.e.matPrevious
          g.e.matTrailEnabled g.e.matTrailAmount
    ∧ (updateOp t g).e.matCurrent = some t
    ∧ (updateOp t g).e.fxCurrent = some t
    ∧ (TrailEffect.construct o).matCurrent = none
    ∧ (TrailEffect.construct o).fxCurrent = none := by
  exact ⟨updateOp_written t g, by simp, by simp, rfl, rfl⟩

/-- C5: every caller-supplied decayAmount v — at construction and through
UpdateOptions — is stored in both uniform maps as exactly v / 100, for every
rational v, with no clamping or range restriction. -/
theorem trail_amount_normalization (v : ℚ) (o : TrailEffectOptions)
    (te : Option Bool) (rs : Option ℚ) (bf : Option BlendFn) (g : GState) :
    (TrailEffect.construct { o with trailAmount := some v }).fxTrailAmount = v / 100
    ∧ (TrailEffect.construct { o with trailAmount := some v }).matTrailAmount = v / 100
    ∧ (updateOptionsOp (some v) te rs bf g).e.fxTrailAmount = v / 100
    ∧ (updateOptionsOp (some v) te rs bf g).e.matTrailAmount = v / 100 := by
  refine ⟨rfl, rfl, ?_, ?_⟩ <;> simp [updateOptionsOp, updateOptionsAmount]

/-- C6 counterexample: the claimed 1 x 1 lower bound on buffer dimensions is
absent: from the default-constructed state, setSize(1, 1) at the default 0.5
resolution scale floors both dimensions to 0, giving 0 x 0 buffers. -/
theorem trail_dims_min_cex :
    (setSizeOp 1 1 demoState).e.buf0.width = 0
    ∧ (setSizeOp 1 1 demoState).e.buf0.height = 0
    ∧ (setSizeOp 1 1 demoState).e.buf1.width = 0
    ∧ (setSizeOp 1 1 demoState).e.buf1.height = 0
    ∧ ¬(1 ≤ (setSizeOp 1 1 demoState).e.buf0.width) := by
  have h0 : Int.floor ((1 : ℚ) * (1 / 2)) = 0 := by norm_num
  norm_num [setSizeOp, demoState, TrailEffect.construct, TrailEffect.setBuf,
    TrailEffect.bufAt, Buffer.setSize, h0]

/-- C6 corrected: in every reachable state the two buffers have identical
dimensions, and any SetSize(w, h) sets both to
floor(w * resolutionScale) x floor(h * resolutionScale); but no 1 x 1 lower
bound holds — the buffers are 1 x 1 at construction and afterwards take
whatever values the floor formula yields, including 0 (see counterexample). -/
theorem trail_dims_invariant (g : GState) (hg : Reachable g) (w h : ℚ) :
    (g.e.buf0.width = g.e.buf1.width ∧ g.e.buf0.height = g.e.buf1.height)
    ∧ ((setSizeOp w h g).e.buf0.width = Int.floor (w * g.e.resolutionScale)
      ∧ (setSizeOp w h g).e.buf0.height = Int.floor (h * g.e.resolutionScale)
      ∧ (setSizeOp w h g).e.buf1.width = Int.floor (w * g.e.resolutionScale)
      ∧ (setSizeOp w h g).e.buf1.height = Int.floor (h * g.e.resolutionScale)) := by
  obtain ⟨hAB, hw, hh, _⟩ := EInv_of_reachable g hg
  exact ⟨⟨hw, hh⟩, setSizeOp_dims w h g hAB⟩

/-- Witness for C6 (corrected) at the demonstration state and an 800 x 600
viewport. -/
theorem trail_dims_invariant_witness :
    Reachable demoState
    ∧ ((demoState.e.buf0.width = demoState.e.buf1.width
        ∧ demoState.e.buf0.height = demoState.e.buf1.height)
      ∧ ((setSizeOp 800 600 demoState).e.buf0.width
            = Int.floor ((800 : ℚ) * demoState.e.resolutionScale)
        ∧ (setSizeOp 800 600 demoState).e.buf0.height
            = Int.floor ((600 : ℚ) * demoState.e.resolutionScale)
        ∧ (setSizeOp 800 600 demoState).e.buf1.width
            = Int.floor ((800 : ℚ) * demoState.e.resolutionScale)
        ∧ (setSizeOp 800 600 demoState).e.buf1.height
            = Int.floor ((600 : ℚ) * demoState.e.resolutionScale))) :=
  ⟨Reachable.constructed ⟨none, 800, 600⟩ ⟨none, none, none, none⟩,
   trail_dims_invariant demoState
     (Reachable.constructed ⟨none, 800, 600⟩ ⟨none, none, none, none⟩) 800 600⟩

/-- C7: in every reachable state, SetSize(w, h) resizes both buffers to
floor(w * resolutionScale) x floor(h * resolutionScale), leaves the
write/history role pointers unchanged, and leaves both buffers at the clear
baseline: once a renderer is stored the explicit clear runs, and before
Initialize the buffers have never been rendered into and a resize reallocates
zero-initialised storage, so they read as the baseline either way. -/
theorem trail_setSize_spec (g : GState) (hg : Reachable g) (w h : ℚ) :
    (setSizeOp w h g).e.buf0.width = Int.floor (w * g.e.resolutionScale)
    ∧ (setSizeOp w h g).e.buf0.height = Int.floor (h * g.e.resolutionScale)
    ∧ (setSizeOp w h g).e.buf1.width = Int.floor (w * g.e.resolutionScale)
    ∧ (setSizeOp w h g).e.buf1.height = Int.floor (h * g.e.resolutionScale)
    ∧ (setSizeOp w h g).e.renderTargetA = g.e.renderTargetA
    ∧ (setSizeOp w h g).e.renderTargetB = g.e.renderTargetB
    ∧ Baseline (setSizeOp w h g).e.buf0.content
    ∧ Baseline (setSizeOp w h g).e.buf1.content := by
  obtain ⟨hAB, hw, hh, hb⟩ := EInv_of_reachable g hg
  have hd := setSizeOp_dims w h g hAB
  have hbl := setSizeOp_baseline w h g hAB hb
  exact ⟨hd.1, hd.2.1, hd.2.2.1, hd.2.2.2, by simp, by simp, hbl.1, hbl.2⟩

/-- Witness for C7 at the demonstration state and an 800 x 600 viewport. -/
theorem trail_setSize_spec_witness :
    Reachable demoState
    ∧ ((setSizeOp 800 600 demoState).e.buf0.width
          = Int.floor ((800 : ℚ) * demoState.e.resolutionScale)
      ∧ (setSizeOp 800 600 demoState).e.buf0.height
          = Int.floor ((600 : ℚ) * demoState.e.resolutionScale)
      ∧ (setSizeOp 800 600 demoState).e.buf1.width
          = Int.floor ((800 : ℚ) * demoState.e.resolutionScale)
      ∧ (setSizeOp 800 600 demoState).e.buf1.height
          = Int.floor ((600 : ℚ) * demoState.e.resolutionScale)
      ∧ (setSizeOp 800 600 demoState).e.renderTargetA = demoState.e.renderTargetA
      ∧ (setSizeOp 800 600 demoState).e.renderTargetB = demoState.e.renderTargetB
      ∧ Baseline (setSizeOp 800 600 demoState).e.buf0.content
      ∧ Baseline (setSizeOp 800 600 demoState).e.buf1.content) :=
  ⟨Reachable.constructed ⟨none, 800, 600⟩ ⟨none, none, none, none⟩,
   trail_setSize_spec demoState
     (Reachable.constructed ⟨none, 800, 600⟩ ⟨none, none, none, none⟩) 800 600⟩

/-- C8 counterexample: the all-defaults constructor makes the two render
targets 1 x 1 — area one, not zero-area as claimed. -/
theorem trail_defaults_cex :
    (TrailEffect.construct ⟨none, none, none, none⟩).buf0.width = 1
    ∧ (TrailEffect.construct ⟨none, none, none, none⟩).buf0.height = 1
    ∧ (TrailEffect.construct ⟨none, none, none, none⟩).buf1.width = 1
    ∧ (TrailEffect.construct ⟨none, none, none, none⟩).buf1.height = 1
    ∧ (TrailEffect.construct ⟨none, none, none, none⟩).buf0.width
        * (TrailEffect.construct ⟨none, none, none, none⟩).buf0.height ≠ 0 := by
  refine ⟨rfl, rfl, rfl, rfl, ?_⟩
  decide

/-- C8 corrected: construction with an options object omitting every field
yields the defaults — stored normalized decay amount 95/100 in both uniform
maps, enabled true, resolutionScale 0.5, lighten blend mode (in the private
field and the blend mode of the base class), no stored renderer — and two
1 x 1 placeholder buffers (not zero-area), resized once the viewport size is
known. -/
theorem trail_defaults :
    (TrailEffect.construct ⟨none, none, none, none⟩).fxTrailAmount = 95 / 100
    ∧ (TrailEffect.construct ⟨none, none, none, none⟩).matTrailAmount = 95 / 100
    ∧ (TrailEffect.construct ⟨none, none, none, none⟩).fxTrailEnabled = true
    ∧ (TrailEffect.construct ⟨none, none, none, none⟩).matTrailEnabled = true
    ∧ (TrailEffect.construct ⟨none, none, none, none⟩).resolutionScale = 1 / 2
    ∧ (TrailEffect.construct ⟨none, none, none, none⟩).blendFn = BlendFn.lighten
    ∧ (TrailEffect.construct ⟨none, none, none, none⟩).blendModeFn = BlendFn.lighten
    ∧ (TrailEffect.construct ⟨none, none, none, none⟩).localRenderer = false
    ∧ (TrailEffect.construct ⟨none, none, none, none⟩).buf0
        = ⟨1, 1, BufContent.fresh⟩
    ∧ (TrailEffect.construct ⟨none, none, none, none⟩).buf1
        = ⟨1, 1, BufContent.fresh⟩
    ∧ (TrailEffect.construct ⟨none, none, none, none⟩).fxCurrent = none
    ∧ (TrailEffect.construct ⟨none, none, none, none⟩).fxPrevious = none :=
  ⟨rfl, rfl, rfl, rfl, rfl, rfl, rfl, rfl, rfl, rfl, rfl, rfl⟩

/-- C9 counterexample: UpdateOptions stores resolutionScale -1 exactly as
given; no clamping into (0, 1] happens, the stored value is not positive. -/
theorem trail_scale_clamp_cex :
    (updateOptionsOp none none (some (-1)) none demoState).e.resolutionScale = -1
    ∧ ¬(0 < (updateOptionsOp none none (some (-1)) none demoState).e.resolutionScale) := by
  have h : (updateOptionsOp none none (some (-1)) none demoState).e.resolutionScale = -1 :=
    updateOptionsScale_sets (-1) demoState
  refine ⟨h, ?_⟩
  rw [h]
  norm_num

/-- C9 corrected: every resolutionScale value handed to UpdateOptions ends up
stored exactly as given — when it differs from the current value the field is
overwritten verbatim, and when it is equal the field already holds it — with
no clamping into (0, 1] anywhere (non-finite floats are outside this model). -/
theorem trail_scale_unclamped (v : ℚ) (ta : Option ℚ) (te : Option Bool)
    (bf : Option BlendFn) (g : GState) :
    (updateOptionsOp ta te (some v) bf g).e.resolutionScale = v := by
  simp [updateOptionsOp, updateOptionsScale_sets]

/-- C10: clearRenderTargets saves the renderer's active render target and
restores it before returning; consequently initialize, setSize (in both its
renderer-stored and renderer-absent paths) and resetRenderTargets leave the
host's active render target observably unchanged. -/
theorem trail_active_target_restored (g : GState) (w h : ℚ) :
    (clearRenderTargetsOp g).r.activeTarget = g.r.activeTarget
    ∧ (initEffect g).r.activeTarget = g.r.activeTarget
    ∧ (setSizeOp w h g).r.activeTarget = g.r.activeTarget
    ∧ (resetRenderTargetsOp g).r.activeTarget = g.r.activeTarget := by
  refine ⟨by simp, by simp [initEffect], by simp, ?_⟩
  unfold resetRenderTargetsOp
  split
  · simp
  · rfl
